import Mathlib

/-!
Verification of the triad-plus-mediator debate engine (`core/jury.py`), the
artifact schemas (`core/schemas/artifacts.py`), the stage functions
(`tekton/stages/*.py`) and the workflow runner (`tekton/swarm.py`) of the
payready-ai repository, as a shallow embedding in Lean.

Conventions of the embedding:
* Python JSON values are modelled by the inductive type `Json`; JSON numbers
  are modelled as rationals (every numeric literal occurring in this code is
  exact in `ℚ`).
* `json.loads` of the mediator's raw response is abstracted as an
  `Option Json`: `none` models a `JSONDecodeError`/`TypeError` (the response
  does not parse), `some j` models a successful parse producing `j`.
* The environment checks `os.getenv("PAYREADY_OFFLINE_MODE") == "1"` and
  `os.getenv("PAYREADY_TEST_MODE") == "1"` are modelled as two booleans.
* Raising `ValueError(msg)` is modelled as `Except.error msg`.
* An agent (`agno` Agent with `run`/`arun`) is modelled by its observable
  capability: a function from prompt text to response text; `core/jury.py`
  stringifies non-string responses before appending them to the transcript,
  so `String → String` is the faithful interface of one agent call.
* Writing a file is modelled by appending a `(path, content)` pair to a write
  log; the content recorded is the JSON value that `swarm.py` serializes with
  2-space indentation (`model_dump_json(indent=2)` / `json(indent=2)`).
-/

/-- JSON values as produced by `json.loads`, with numbers as rationals. -/
inductive Json where
  | null
  | bool (b : Bool)
  | num (q : ℚ)
  | str (s : String)
  | arr (elems : List Json)
  | obj (fields : List (String × Json))

/-- First-match lookup of a key in a JSON object's field list, as Python
`dict` lookup (keys are unique in parsed JSON; first match is the value). -/
def lookupKey : List (String × Json) → String → Option Json
  | [], _ => none
  | (k, v) :: rest, key => if k = key then some v else lookupKey rest key

/-- Field access `payload.get(key)` on a JSON object (`none` on non-objects
and missing keys). -/
def Json.get (j : Json) (key : String) : Option Json :=
  match j with
  | .obj kvs => lookupKey kvs key
  | _ => none

/-- Whether a JSON object carries the given key. -/
def Json.hasKey (j : Json) (key : String) : Bool :=
  (j.get key).isSome

/-- ASCII lower-casing of one character, as Python `str.lower` acts on the
ASCII stage labels used by this code base. -/
def lowerChar (c : Char) : Char :=
  if c.isUpper then Char.ofNat (c.toNat + 32) else c

/-- ASCII lower-casing, modelling Python `str.lower()` on the stage labels
(`"Plan"`, `"Plan Update"`, ... are all ASCII). -/
def lowerString (s : String) : String :=
  String.mk (s.data.map lowerChar)

/-- The ASCII single-quote character used inside the error messages of
`core/jury.py` (for example `Stage 'Plan' mediator output is not valid JSON`). -/
def quoteChar : String := String.singleton (Char.ofNat 39)

/-! ## Debate engine: transcript construction (`core/jury.py`, lines 14-69) -/

/-- An agent as consumed by `triad_with_mediator`: one call takes the context
text and returns the (stringified) response text. -/
structure Agent where
  run : String → String

/-- The fixed rubric prepended to the stage prompt (`_rubric` in
`core/jury.py`). -/
def rubric (stage : String) : String :=
  "You are in the " ++ stage ++ " stage.\n" ++
  "Always answer with JSON containing keys:\n" ++
  "  position: string\n" ++
  "  score: {correctness:float, stack_fit:float, ops_risk:float, reversibility:float, recency:float}\n" ++
  "  risks: [string]\n" ++
  "  checks: [string]\n" ++
  "  self_confidence: float in [0,1]\n" ++
  "  dissent?: optional notes\n"

/-- Formatting of the transcript as `[Role] message` lines (`_as_messages`
in `core/jury.py`). -/
def as_messages (data : List (String × String)) : String :=
  String.intercalate "\n" (data.map (fun p => "[" ++ p.1 ++ "] " ++ p.2))

/-- One call of the inner `_run` helper of `triad_with_mediator`: invoke the
agent on the context and append `(label, message)` to the transcript. -/
def runAgent (a : Agent) (label : String) (context : String)
    (transcript : List (String × String)) : List (String × String) :=
  transcript ++ [(label, a.run context)]

/-- The three role labels of the triad, in their fixed invocation order. -/
def triadLabels : List String := ["Proponent", "Skeptic", "Pragmatist"]

/-- The debate rounds loop of `triad_with_mediator` (`for _ in range(rounds)`):
each round formats the transcript so far once, then re-invokes proponent,
skeptic and pragmatist sequentially on that summary. -/
def debateRounds (p s pr : Agent) : Nat → List (String × String) → List (String × String)
  | 0, t => t
  | Nat.succ n, t =>
    let summary := as_messages t
    debateRounds p s pr n
      (runAgent pr "Pragmatist" summary
        (runAgent s "Skeptic" summary
          (runAgent p "Proponent" summary t)))

/-- The opening round of `triad_with_mediator`: `context = _rubric(stage) +
"\n" + prompt`, and each of the three roles is invoked on
`context + "\n" + prompt` in the fixed order. -/
def openingTranscript (p s pr : Agent) (prompt stage : String) : List (String × String) :=
  let context := rubric stage ++ "\n" ++ prompt
  runAgent pr "Pragmatist" (context ++ "\n" ++ prompt)
    (runAgent s "Skeptic" (context ++ "\n" ++ prompt)
      (runAgent p "Proponent" (context ++ "\n" ++ prompt) []))

/-- The full transcript accumulated by `triad_with_mediator` before the
mediator is invoked: opening round followed by `rounds` debate rounds.
The mediator's own response is never appended to the transcript. -/
def debateTranscript (p s pr : Agent) (prompt stage : String) (rounds : Nat) :
    List (String × String) :=
  debateRounds p s pr rounds (openingTranscript p s pr prompt stage)

/-- The default of the `rounds` keyword parameter of `triad_with_mediator`. -/
def triadRoundsDefault : Nat := 2

/-! ## Debate engine: mediator-output recovery (`core/jury.py`, lines 85-138) -/

/-- Error message raised when the mediator response is not valid JSON in
strict mode. -/
def mediatorJsonError (stage : String) : String :=
  "Stage " ++ quoteChar ++ stage ++ quoteChar ++ " mediator output is not valid JSON"

/-- The stub artifact synthesized for stage labels lower-casing to `plan`. -/
def planStubArtifact : Json := Json.obj [
  ("goals", .arr [.str "Complete task in offline mode"]),
  ("milestones", .arr [.str "Stub milestone 1"]),
  ("acceptance_criteria", .arr [.str "System works offline"]),
  ("risks", .arr [.str "None in stub mode"]),
  ("slos", .arr []),
  ("dri", .str "stub-owner"),
  ("timeline", .str "immediate"),
  ("confidence", .num (Rat.divInt 4 5))]

/-- The stub artifact synthesized for stage labels lower-casing to
`research`. -/
def researchStubArtifact : Json := Json.obj [
  ("options", .arr [Json.obj [
    ("name", .str "Stub Option"),
    ("pros", .arr [.str "Works offline"]),
    ("cons", .arr [.str "Limited functionality"]),
    ("links", .arr [.str "http://example.com"])]]),
  ("decision_matrix", .arr [Json.obj [
    ("criteria", .str "offline"),
    ("score", .num 10)]]),
  ("chosen", .str "Stub Option"),
  ("citations", .arr [.str "Stub citation"]),
  ("freshness_window_days", .num 120),
  ("confidence", .num (Rat.divInt 4 5))]

/-- The generic stub artifact synthesized for every other stage label. -/
def genericStubArtifact (stage : String) : Json := Json.obj [
  ("name", .str ("Stub " ++ stage)),
  ("description", .str ("Stub artifact for " ++ stage ++ " stage")),
  ("status", .str "success")]

/-- Stage-appropriate stub artifact selection (`if stage.lower() == "plan"
... elif stage.lower() == "research" ... else ...`). -/
def stubArtifact (stage : String) : Json :=
  if lowerString stage = "plan" then planStubArtifact
  else if lowerString stage = "research" then researchStubArtifact
  else genericStubArtifact stage

/-- The full payload synthesized in offline/test mode when the mediator
response fails to parse as JSON. -/
def stubPayload (stage : String) : Json := Json.obj [
  ("artifact", stubArtifact stage),
  ("status", .str "success"),
  ("rationale", .str "Running in offline/test mode with stub responses"),
  ("dissent", .str ""),
  ("risks", .arr []),
  ("checklist", .arr []),
  ("confidence", .num (Rat.divInt 4 5)),
  ("votes", Json.obj [("A", .num 1), ("B", .num 1), ("C", .num 1)]),
  ("loops_run", .num 1)]

/-- The `try: payload = json.loads(response) except ...` block of
`triad_with_mediator`: a parsed response is kept; a parse failure is replaced
by the stub payload when `PAYREADY_OFFLINE_MODE == "1"` or
`PAYREADY_TEST_MODE == "1"`, and otherwise raises `ValueError` naming the
stage. -/
def recoverPayload (offlineMode testMode : Bool) (stage : String)
    (parsed : Option Json) : Except String Json :=
  match parsed with
  | some payload => .ok payload
  | none =>
    if offlineMode || testMode then .ok (stubPayload stage)
    else .error (mediatorJsonError stage)

/-! ## Schema validation (`core/schemas/artifacts.py` and `core/jury.py`,
lines 140-147) -/

/-- Whether a JSON value is a string. -/
def isStr : Json → Bool
  | .str _ => true
  | _ => false

/-- Whether a JSON value is an object (a Python `dict`). -/
def isObj : Json → Bool
  | .obj _ => true
  | _ => false

/-- Whether a JSON value is a boolean. -/
def isBool : Json → Bool
  | .bool _ => true
  | _ => false

/-- Whether a JSON value is a string or `null` (pydantic `Optional[str]`). -/
def isStrOrNull : Json → Bool
  | .str _ => true
  | .null => true
  | _ => false

/-- Whether a JSON value is a list all of whose elements satisfy `p`. -/
def isListOf (p : Json → Bool) (j : Json) : Bool :=
  match j with
  | .arr xs => xs.all p
  | _ => false

/-- Whether a JSON value is a non-empty list all of whose elements satisfy
`p` (pydantic `conlist(..., min_items=1)`). -/
def isNonemptyListOf (p : Json → Bool) (j : Json) : Bool :=
  match j with
  | .arr (x :: xs) => p x && xs.all p
  | _ => false

/-- Whether a JSON value is a list of strings (pydantic `List[str]`). -/
def isStrList (j : Json) : Bool := isListOf isStr j

/-- Whether a JSON value is an integral number (pydantic `int`). -/
def isIntNum : Json → Bool
  | .num q => q.den == 1
  | _ => false

/-- Whether a JSON value is acceptable for a pydantic `datetime` field
(ISO string or numeric timestamp). -/
def isDatetimeLike : Json → Bool
  | .str _ => true
  | .num _ => true
  | _ => false

/-- The `Confidence = confloat(ge=0.0, le=1.0)` bound of
`core/schemas/artifacts.py`: a number in the closed interval [0, 1]. -/
def isConfidence : Json → Bool
  | .num q => decide (0 ≤ q) && decide (q ≤ 1)
  | _ => false

/-- A required pydantic field: present and well-typed. -/
def reqField (j : Json) (key : String) (p : Json → Bool) : Bool :=
  match j.get key with
  | some v => p v
  | none => false

/-- An optional pydantic field (one with a default): absent, or well-typed. -/
def optField (j : Json) (key : String) (p : Json → Bool) : Bool :=
  match j.get key with
  | some v => p v
  | none => true

/-- Structural validation of `PlanArtifact`. -/
def PlanArtifact_validate (j : Json) : Bool :=
  reqField j "goals" (isNonemptyListOf isStr) &&
  reqField j "milestones" isStrList &&
  reqField j "acceptance_criteria" isStrList &&
  reqField j "risks" isStrList &&
  optField j "slos" isStrList &&
  reqField j "dri" isStr &&
  reqField j "timeline" isStr &&
  reqField j "confidence" isConfidence

/-- Structural validation of `ResearchOption`. -/
def ResearchOption_validate (j : Json) : Bool :=
  reqField j "name" isStr &&
  reqField j "pros" isStrList &&
  reqField j "cons" isStrList &&
  reqField j "links" isStrList

/-- Structural validation of `ResearchArtifact`. -/
def ResearchArtifact_validate (j : Json) : Bool :=
  reqField j "options" (isNonemptyListOf ResearchOption_validate) &&
  reqField j "decision_matrix" (isListOf isObj) &&
  reqField j "chosen" isStr &&
  reqField j "citations" isStrList &&
  optField j "freshness_window_days" isIntNum &&
  reqField j "confidence" isConfidence

/-- Structural validation of `BacklogItem`. -/
def BacklogItem_validate (j : Json) : Bool :=
  reqField j "item_id" isStr &&
  reqField j "task" isStr &&
  reqField j "rationale" isStr &&
  optField j "dependencies" isStrList &&
  optField j "owner" isStrOrNull

/-- Structural validation of `BacklogArtifact`. -/
def BacklogArtifact_validate (j : Json) : Bool :=
  reqField j "items" (isNonemptyListOf BacklogItem_validate) &&
  reqField j "plan_version" isStr &&
  reqField j "confidence" isConfidence

/-- Structural validation of `ThreatArtifact`. -/
def ThreatArtifact_validate (j : Json) : Bool :=
  reqField j "dfd" isStr &&
  reqField j "risks" isStrList &&
  reqField j "mitigations" isStrList &&
  reqField j "controls" isStrList &&
  reqField j "rollback_plan" isStr &&
  reqField j "compliance" isObj &&
  reqField j "confidence" isConfidence

/-- Structural validation of `IntegrationArtifact`. -/
def IntegrationArtifact_validate (j : Json) : Bool :=
  reqField j "flags" isStrList &&
  reqField j "migrations" isStrList &&
  reqField j "config_map" isObj &&
  reqField j "rollback" isStr &&
  reqField j "confidence" isConfidence

/-- Structural validation of `TestReport`. -/
def TestReport_validate (j : Json) : Bool :=
  reqField j "ship" isBool &&
  optField j "junit_path" isStrOrNull &&
  reqField j "coverage" isObj &&
  reqField j "flakes" isStrList &&
  reqField j "confidence" isConfidence &&
  optField j "generated_at" isDatetimeLike

/-- Structural validation of `ReleaseReport`. -/
def ReleaseReport_validate (j : Json) : Bool :=
  reqField j "environment" isStr &&
  reqField j "version" isStr &&
  reqField j "canary_metrics" isObj &&
  reqField j "health" isStrList &&
  reqField j "rollback_cmds" isStrList &&
  reqField j "links" isStrList &&
  reqField j "confidence" isConfidence

/-- A named artifact schema as passed to `triad_with_mediator` (`schema` is
a pydantic model class; `schema.__name__` is its name, `parse_obj` its
validator). -/
structure Schema where
  name : String
  validate : Json → Bool

/-- The `PlanArtifact` schema. -/
def PlanArtifact_schema : Schema := ⟨"PlanArtifact", PlanArtifact_validate⟩

/-- The `ResearchArtifact` schema. -/
def ResearchArtifact_schema : Schema := ⟨"ResearchArtifact", ResearchArtifact_validate⟩

/-- The `BacklogArtifact` schema. -/
def BacklogArtifact_schema : Schema := ⟨"BacklogArtifact", BacklogArtifact_validate⟩

/-- The `ThreatArtifact` schema. -/
def ThreatArtifact_schema : Schema := ⟨"ThreatArtifact", ThreatArtifact_validate⟩

/-- The `IntegrationArtifact` schema. -/
def IntegrationArtifact_schema : Schema := ⟨"IntegrationArtifact", IntegrationArtifact_validate⟩

/-- The `TestReport` schema. -/
def TestReport_schema : Schema := ⟨"TestReport", TestReport_validate⟩

/-- The `ReleaseReport` schema. -/
def ReleaseReport_schema : Schema := ⟨"ReleaseReport", ReleaseReport_validate⟩

/-- Error message raised when the mediator output fails schema validation
(`Stage '...' mediator output failed ... validation`). -/
def validationError (stage schemaName : String) : String :=
  "Stage " ++ quoteChar ++ stage ++ quoteChar ++ " mediator output failed " ++
    schemaName ++ " validation"

/-- The value handed to `schema.parse_obj`: `payload.get("artifact", payload)`.
On a non-object payload the attribute access itself raises inside the `try`
block, so no target exists (`none`). -/
def artifactTarget : Json → Option Json
  | .obj kvs =>
    some (match lookupKey kvs "artifact" with
      | some v => v
      | none => Json.obj kvs)
  | _ => none

/-- The schema-validation step of `triad_with_mediator` (lines 140-147): with
no schema the artifact stays `None`; with a schema, the target must validate,
and any failure raises the typed validation error naming stage and schema. -/
def validateArtifact : Option Schema → String → Json → Except String (Option Json)
  | none, _, _ => .ok none
  | some s, stage, payload =>
    match artifactTarget payload with
    | some target =>
      if s.validate target then .ok (some target)
      else .error (validationError stage s.name)
    | none => .error (validationError stage s.name)

/-- The outcome of one `triad_with_mediator` call after the mediator
responded, as a function of the two degraded-mode flags, the stage label, the
supplied schema and the parsed mediator response: the returned
`(payload, artifact)` pair, or the raised error message. -/
def juryOutcome (offlineMode testMode : Bool) (stage : String)
    (schema : Option Schema) (parsed : Option Json) :
    Except String (Json × Option Json) :=
  match recoverPayload offlineMode testMode stage parsed with
  | .error e => .error e
  | .ok payload =>
    match validateArtifact schema stage payload with
    | .error e => .error e
    | .ok artifact => .ok (payload, artifact)

/-! ## Stage functions: prior-stage excerpts (`tekton/stages/*.py`) -/

/-- Error message of the Python `TypeError` raised when a `dict` is sliced
(`snapshot[:800]` with `snapshot` a parsed JSON object). -/
def sliceDictError : String :=
  "TypeError: unhashable type: " ++ quoteChar ++ "slice" ++ quoteChar

/-- Error message of the Python `TypeError` raised when a scalar
(`None`/`bool`/number) is sliced. -/
def sliceScalarError : String :=
  "TypeError: object is not subscriptable"

/-- Python slicing `v[:n]` applied to a parsed JSON value: strings and lists
support slices; a `dict` raises `TypeError: unhashable type: slice`; scalars
raise `TypeError: ... is not subscriptable`. -/
def pyExcerpt (v : Json) (n : Nat) : Except String Json :=
  match v with
  | .str s => .ok (.str (s.take n))
  | .arr xs => .ok (.arr (xs.take n))
  | .obj _ => .error sliceDictError
  | _ => .error sliceScalarError

/-- The result of one stage invocation as returned by `triad_with_mediator`
and threaded through the runner: the mediator payload, the validated artifact
(or `None`), and the `artifact_path` the runner records after persisting
(`none` until the runner sets it). The transcript entry of the result dict is
independent of the runner logic and is modelled separately by
`debateTranscript`. -/
structure StageResult where
  mediator : Json
  artifact : Option Json
  artifactPath : Option String

/-- Lookup of a completed stage in `context["results"]`. -/
def lookupStage : List (String × StageResult) → String → Option StageResult
  | [], _ => none
  | (k, v) :: rest, name => if k = name then some v else lookupStage rest name

/-- The value `context["results"].get(name, {}).get("mediator", "")` read by
the stage functions: the prior stage's mediator payload, or the empty string
when that stage has not run. -/
def mediatorSnapshot (results : List (String × StageResult)) (name : String) : Json :=
  match lookupStage results name with
  | some r => r.mediator
  | none => .str ""

/-- Success or failure of the `snapshot[:800]` slice in a stage's prompt
construction. -/
def excerptCheck (v : Json) : Except String Unit :=
  match pyExcerpt v 800 with
  | .error e => .error e
  | .ok _ => .ok ()

/-- The prior-stage excerpt computations each stage function performs while
building its prompt, with the snapshot each one reads from
`context["results"]`: `research` slices the `plan` mediator payload raw
(`plan_snapshot[:800]`), `code` slices `plan_update`, `review` slices `code`,
`threat` slices `review`, `integrate` slices `threat`, `test_debug` slices
`integrate`. `plan` reads no prior stage, and `plan_update` and `release`
wrap their snapshots in `str(...)` before slicing, which never fails. -/
def stageExcerpts (name : String) (results : List (String × StageResult)) :
    Except String Unit :=
  if name = "research" then excerptCheck (mediatorSnapshot results "plan")
  else if name = "code" then excerptCheck (mediatorSnapshot results "plan_update")
  else if name = "review" then excerptCheck (mediatorSnapshot results "code")
  else if name = "threat" then excerptCheck (mediatorSnapshot results "review")
  else if name = "integrate" then excerptCheck (mediatorSnapshot results "threat")
  else if name = "test_debug" then excerptCheck (mediatorSnapshot results "integrate")
  else .ok ()

/-! ## Workflow runner (`tekton/swarm.py`) -/

/-- The ordered stage names of the `STAGES` OrderedDict. -/
def STAGES : List String :=
  ["plan", "research", "plan_update", "code", "review", "threat", "integrate",
   "test_debug", "release"]

/-- The stage label each stage function passes to `triad_with_mediator`
(for example `run_plan` passes `stage="Plan"`). -/
def stageLabelOf : String → String
  | "plan" => "Plan"
  | "research" => "Research"
  | "plan_update" => "Plan Update"
  | "code" => "Code"
  | "review" => "Review"
  | "threat" => "Threat"
  | "integrate" => "Integrate"
  | "test_debug" => "Test Debug"
  | "release" => "Release"
  | s => s

/-- The schema each stage function passes to `triad_with_mediator`; `code`
and `review` pass none. -/
def stageSchemaOf : String → Option Schema
  | "plan" => some PlanArtifact_schema
  | "research" => some ResearchArtifact_schema
  | "plan_update" => some BacklogArtifact_schema
  | "threat" => some ThreatArtifact_schema
  | "integrate" => some IntegrationArtifact_schema
  | "test_debug" => some TestReport_schema
  | "release" => some ReleaseReport_schema
  | _ => none

/-- The `ARTIFACT_FILENAMES` table of `tekton/swarm.py`. -/
def ARTIFACT_FILENAMES : List (String × String) :=
  [("plan", "plan.json"), ("research", "research.json"),
   ("plan_update", "backlog.json"), ("threat", "threat.json"),
   ("integrate", "integration.json"), ("test_debug", "test_report.json"),
   ("release", "release_report.json")]

/-- First-match lookup in a string association list. -/
def lookupName : List (String × String) → String → Option String
  | [], _ => none
  | (k, v) :: rest, key => if k = key then some v else lookupName rest key

/-- The filename chosen for a stage's artifact:
`ARTIFACT_FILENAMES.get(name, f"{name}.json")`. -/
def artifactFilenameOf (name : String) : String :=
  match lookupName ARTIFACT_FILENAMES name with
  | some f => f
  | none => name ++ ".json"

/-- The run-wide environment of one `swarm.run` invocation: the two
degraded-mode flags, and the parsed mediator response each stage's mediator
agent ends up producing (`none` models a response that is not valid JSON). -/
structure RunEnv where
  offline : Bool
  testMode : Bool
  parsed : String → Option Json

/-- One stage function as called by the runner: build the prompt (whose
prior-stage excerpts may raise), then delegate to `triad_with_mediator` with
the stage's label and schema. A fresh result always has `artifact_path`
unset. -/
def stageFn (env : RunEnv) (name : String) (results : List (String × StageResult)) :
    Except String StageResult :=
  match stageExcerpts name results with
  | .error e => .error e
  | .ok _ =>
    match juryOutcome env.offline env.testMode (stageLabelOf name)
        (stageSchemaOf name) (env.parsed name) with
    | .error e => .error e
    | .ok pa => .ok ⟨pa.1, pa.2, none⟩

/-- The output of `swarm.run`: the accumulated `results` mapping (insertion
ordered) and the log of files written under `output_dir`. -/
structure RunOutput where
  results : List (String × StageResult)
  writes : List (String × Json)

/-- The artifact-persistence step of the runner loop: when the stage result
carries a non-null artifact, serialize it (2-space indented JSON) to
`output_dir / filename` and record `artifact_path` in the result. -/
def persistStep (dir name : String) (res : StageResult)
    (writes : List (String × Json)) : StageResult × List (String × Json) :=
  match res.artifact with
  | some a =>
    (⟨res.mediator, res.artifact, some (dir ++ "/" ++ artifactFilenameOf name)⟩,
     writes ++ [(dir ++ "/" ++ artifactFilenameOf name, a)])
  | none => (res, writes)

/-- The `for name, fn in STAGES.items()` loop of `swarm.run`: the capture
flag turns on at `start`, uncaptured stages are skipped, each captured stage
is invoked, its artifact persisted, its result appended, and the loop breaks
after `end` executes. -/
def runLoop (impl : String → List (String × StageResult) → Except String StageResult)
    (dir start endStage : String) :
    List String → Bool → List (String × StageResult) → List (String × Json) →
    Except String RunOutput
  | [], _, results, writes => .ok ⟨results, writes⟩
  | name :: rest, capture, results, writes =>
    if (capture || (name == start)) = false then
      runLoop impl dir start endStage rest (capture || (name == start)) results writes
    else
      match impl name results with
      | .error e => .error e
      | .ok res =>
        if name == endStage then
          .ok ⟨results ++ [(name, (persistStep dir name res writes).1)],
               (persistStep dir name res writes).2⟩
        else
          runLoop impl dir start endStage rest (capture || (name == start))
            (results ++ [(name, (persistStep dir name res writes).1)])
            (persistStep dir name res writes).2

/-- The `swarm.run` entry point: reject unknown `start`/`end` stage names
before the loop touches any stage or file, then run the capture loop over the
fixed stage order. The stage functions are a parameter so that the runner's
control flow is stated for any stage behavior; `stageFn env` instantiates
them with the embedded `tekton/stages/*` bodies. -/
def runSwarm (impl : String → List (String × StageResult) → Except String StageResult)
    (dir start endStage : String) : Except String RunOutput :=
  if start ∈ STAGES then
    if endStage ∈ STAGES then
      runLoop impl dir start endStage STAGES false [] []
    else .error ("Unknown end stage: " ++ endStage)
  else .error ("Unknown start stage: " ++ start)

/-- Ghost of the runner loop's control flow: the stage names the loop
executes, in order, for given `start`/`end` bounds. -/
def loopKeys (start endStage : String) : List String → Bool → List String
  | [], _ => []
  | name :: rest, capture =>
    if (capture || (name == start)) = false then
      loopKeys start endStage rest (capture || (name == start))
    else if name == endStage then [name]
    else name :: loopKeys start endStage rest (capture || (name == start))

/-! ## Concrete values and specification predicates used by the theorems -/

/-- A plan artifact claiming `confidence = 1.5` (the spec's example of an
out-of-bounds confidence; other fields follow the spec's round-trip shape
`goals=["x"], milestones=[], acceptance_criteria=[], risks=[], dri="a",
timeline="t"`). -/
def overconfidentPlanArtifact : Json := Json.obj [
  ("goals", .arr [.str "x"]),
  ("milestones", .arr []),
  ("acceptance_criteria", .arr []),
  ("risks", .arr []),
  ("dri", .str "a"),
  ("timeline", .str "t"),
  ("confidence", .num (Rat.divInt 3 2))]

/-- A mediator payload whose `artifact` field is the out-of-bounds plan
artifact. -/
def overconfidentPlanPayload : Json := Json.obj [
  ("artifact", overconfidentPlanArtifact)]

/-- The bound the `Confidence` type enforces, as a proposition about a
validated artifact value: its `confidence` field is a number in [0, 1]. -/
def confidenceBounded (j : Json) : Prop :=
  ∃ q : ℚ, j.get "confidence" = some (.num q) ∧ 0 ≤ q ∧ q ≤ 1

/-- What the runner guarantees for one persisted stage entry: whenever the
stage result carries a non-null artifact, the result's `artifact_path` is
`output_dir / stage filename` and that file was written with the artifact as
content. -/
def persistedOK (dir : String) (writes : List (String × Json))
    (p : String × StageResult) : Prop :=
  ∀ a, p.2.artifact = some a →
    p.2.artifactPath = some (dir ++ "/" ++ artifactFilenameOf p.1) ∧
    (dir ++ "/" ++ artifactFilenameOf p.1, a) ∈ writes

/-- The degraded-mode run environment in which every mediator response fails
to parse (`PAYREADY_OFFLINE_MODE=1`, stub agents returning non-JSON). -/
def offlineEnv : RunEnv := ⟨true, false, fun _ => none⟩

/-- The output of `runSwarm` in `offlineEnv` for `start = end = "plan"`:
one result entry for `plan` carrying the stub payload and validated stub
artifact, with `plan.json` written under `out`. -/
def planRunOut : RunOutput :=
  ⟨[("plan", ⟨stubPayload "Plan", some planStubArtifact, some "out/plan.json"⟩)],
   [("out/plan.json", planStubArtifact)]⟩

/-- A trivially succeeding stage implementation (used to witness runner
control-flow theorems that hold for any stage behavior). -/
def alwaysOkStage : String → List (String × StageResult) → Except String StageResult :=
  fun _ _ => .ok ⟨Json.null, none, none⟩

/-! ## Theorems -/

theorem runAgent_map_fst (a : Agent) (l c : String) (t : List (String × String)) :
    (runAgent a l c t).map Prod.fst = t.map Prod.fst ++ [l] := by
  simp [runAgent]

theorem debateRounds_map_fst (p s pr : Agent) :
    ∀ (n : Nat) (t : List (String × String)),
      (debateRounds p s pr n t).map Prod.fst =
        t.map Prod.fst ++ (List.replicate n triadLabels).flatten := by
  intro n
  induction n with
  | zero => intro t; simp [debateRounds]
  | succ n ih =>
    intro t
    simp only [debateRounds, ih, runAgent_map_fst, List.replicate_succ,
      List.flatten_cons, triadLabels, List.append_assoc]
    simp

theorem openingTranscript_map_fst (p s pr : Agent) (prompt stage : String) :
    (openingTranscript p s pr prompt stage).map Prod.fst = triadLabels := by
  simp [openingTranscript, runAgent, triadLabels]

theorem triad_flatten_length :
    ∀ n : Nat, ((List.replicate n triadLabels).flatten).length = 3 * n := by
  intro n
  induction n with
  | zero => simp
  | succ n ih =>
    rw [List.replicate_succ, List.flatten_cons, List.length_append, ih]
    have h3 : triadLabels.length = 3 := rfl
    rw [h3]
    omega

theorem mem_triad_flatten :
    ∀ (n : Nat) (x : String),
      x ∈ (List.replicate n triadLabels).flatten → x ∈ triadLabels := by
  intro n
  induction n with
  | zero => simp
  | succ n ih =>
    intro x hx
    rw [List.replicate_succ, List.flatten_cons, List.mem_append] at hx
    rcases hx with h | h
    · exact h
    · exact ih x h

/-- Claim C1: for every debate run with `rounds = R` in which every agent
call returns, the transcript built by `triad_with_mediator` has exactly
`3*(R+1)` entries, labelled Proponent, Skeptic, Pragmatist repeated `R+1`
times in that order; no entry is labelled Mediator; the default of `rounds`
is 2, which gives 9 entries. -/
theorem claim_C1 (p s pr : Agent) (prompt stage : String) (R : Nat) :
    (debateTranscript p s pr prompt stage R).map Prod.fst =
      (List.replicate (R + 1) triadLabels).flatten ∧
    (debateTranscript p s pr prompt stage R).length = 3 * (R + 1) ∧
    (∀ e ∈ debateTranscript p s pr prompt stage R, e.1 ≠ "Mediator") ∧
    triadRoundsDefault = 2 ∧
    (debateTranscript p s pr prompt stage triadRoundsDefault).length = 9 := by
  have hmap : ∀ R' : Nat, (debateTranscript p s pr prompt stage R').map Prod.fst =
      (List.replicate (R' + 1) triadLabels).flatten := by
    intro R'
    rw [debateTranscript, debateRounds_map_fst, openingTranscript_map_fst,
      List.replicate_succ, List.flatten_cons]
  have hlen : ∀ R' : Nat, (debateTranscript p s pr prompt stage R').length = 3 * (R' + 1) := by
    intro R'
    have h := congrArg List.length (hmap R')
    rw [List.length_map, triad_flatten_length] at h
    exact h
  refine ⟨hmap R, hlen R, ?_, rfl, hlen 2⟩
  intro e he hlab
  have h1 : e.1 ∈ (debateTranscript p s pr prompt stage R).map Prod.fst :=
    List.mem_map.mpr ⟨e, he, rfl⟩
  rw [hmap R] at h1
  have h2 := mem_triad_flatten (R + 1) e.1 h1
  rw [hlab] at h2
  simp [triadLabels] at h2

/-- Witness for C1 at a concrete agent triple and one debate round. -/
theorem claim_C1_witness :
    (debateTranscript ⟨fun _ => "m"⟩ ⟨fun _ => "m"⟩ ⟨fun _ => "m"⟩ "p" "Plan" 1).map Prod.fst =
      (List.replicate (1 + 1) triadLabels).flatten ∧
    (debateTranscript ⟨fun _ => "m"⟩ ⟨fun _ => "m"⟩ ⟨fun _ => "m"⟩ "p" "Plan" 1).length = 3 * (1 + 1) ∧
    (∀ e ∈ debateTranscript ⟨fun _ => "m"⟩ ⟨fun _ => "m"⟩ ⟨fun _ => "m"⟩ "p" "Plan" 1, e.1 ≠ "Mediator") ∧
    triadRoundsDefault = 2 ∧
    (debateTranscript ⟨fun _ => "m"⟩ ⟨fun _ => "m"⟩ ⟨fun _ => "m"⟩ "p" "Plan" triadRoundsDefault).length = 9 :=
  claim_C1 ⟨fun _ => "m"⟩ ⟨fun _ => "m"⟩ ⟨fun _ => "m"⟩ "p" "Plan" 1

/-- Claim C2: for every stage label, a mediator response that fails to parse
as JSON raises the error naming that stage exactly when neither
`PAYREADY_OFFLINE_MODE` nor `PAYREADY_TEST_MODE` equals "1"; in degraded mode
the call instead returns the stub payload, whose `status` is `"success"` and
`confidence` is 0.8, and for the plan stage the synthesized artifact carries
the key `goals`. -/
theorem claim_C2 (stage : String) (offlineMode testMode : Bool) :
    (recoverPayload offlineMode testMode stage none = .error (mediatorJsonError stage)
       ↔ offlineMode = false ∧ testMode = false) ∧
    (offlineMode = true ∨ testMode = true →
       recoverPayload offlineMode testMode stage none = .ok (stubPayload stage) ∧
       (stubPayload stage).get "status" = some (.str "success") ∧
       (stubPayload stage).get "confidence" = some (.num (Rat.divInt 4 5)) ∧
       (lowerString stage = "plan" → ((stubArtifact stage).get "goals").isSome = true)) := by
  constructor
  · cases offlineMode <;> cases testMode <;> simp [recoverPayload]
  · intro h
    have hd : (offlineMode || testMode) = true := by
      rcases h with h | h <;> simp [h]
    refine ⟨by simp [recoverPayload, hd], rfl, rfl, ?_⟩
    intro hp
    rw [stubArtifact, if_pos hp]
    rfl

/-- Witness for C2: stage label `"Plan"` in strict mode raises the typed
error; in offline mode it yields the stub payload with `status = "success"`,
`confidence = 0.8` and a `goals` key in the artifact. -/
theorem claim_C2_witness :
    recoverPayload false false "Plan" none = .error (mediatorJsonError "Plan") ∧
    recoverPayload true false "Plan" none = .ok (stubPayload "Plan") ∧
    (stubPayload "Plan").get "status" = some (.str "success") ∧
    (stubPayload "Plan").get "confidence" = some (.num (Rat.divInt 4 5)) ∧
    ((stubArtifact "Plan").get "goals").isSome = true := by
  refine ⟨((claim_C2 "Plan" false false).1).mpr ⟨rfl, rfl⟩, ?_, ?_, ?_, ?_⟩
  · exact ((claim_C2 "Plan" true false).2 (Or.inl rfl)).1
  · exact ((claim_C2 "Plan" true false).2 (Or.inl rfl)).2.1
  · exact ((claim_C2 "Plan" true false).2 (Or.inl rfl)).2.2.1
  · exact ((claim_C2 "Plan" true false).2 (Or.inl rfl)).2.2.2 rfl

/-- Counterexample to C9 as stated: the `"Research"` stage is not the plan
stage, yet its synthesized stub artifact is not the generic
`{name, description, status}` object — it has no `name` key (it is the
research-specific stub with `options`, `decision_matrix`, ...). -/
theorem claim_C9_counterexample :
    lowerString "Research" ≠ "plan" ∧
    (stubArtifact "Research").get "name" = none ∧
    ((genericStubArtifact "Research").get "name").isSome = true ∧
    stubArtifact "Research" ≠ genericStubArtifact "Research" := by
  refine ⟨by decide, rfl, rfl, ?_⟩
  intro h
  have h2 := congrArg (fun j => (Json.get j "name").isSome) h
  exact Bool.noConfusion h2

/-- Claim C9 (amended): in degraded mode the synthesized payload always has
`status = "success"` and `confidence = 0.8`; the synthesized default artifact
is the generic `{name, description, status: "success"}` object for every
stage other than plan AND research (plan and research get stage-specific
stubs). -/
theorem claim_C9 (stage : String) :
    (stubPayload stage).get "status" = some (.str "success") ∧
    (stubPayload stage).get "confidence" = some (.num (Rat.divInt 4 5)) ∧
    (lowerString stage ≠ "plan" → lowerString stage ≠ "research" →
      stubArtifact stage = genericStubArtifact stage) := by
  refine ⟨rfl, rfl, ?_⟩
  intro h1 h2
  rw [stubArtifact, if_neg h1, if_neg h2]

/-- Witness for C9 at the `"Code"` stage label. -/
theorem claim_C9_witness :
    (stubPayload "Code").get "status" = some (.str "success") ∧
    (stubPayload "Code").get "confidence" = some (.num (Rat.divInt 4 5)) ∧
    stubArtifact "Code" = genericStubArtifact "Code" :=
  ⟨(claim_C9 "Code").1, (claim_C9 "Code").2.1,
   (claim_C9 "Code").2.2 (by decide) (by decide)⟩

/-- Claim C4: whenever a schema is supplied and the mediator payload's
artifact target (the `artifact` field, or the whole payload without one)
fails validation, `triad_with_mediator` raises the typed error naming the
stage and the schema — in every mode, including degraded/offline mode. -/
theorem claim_C4 (offlineMode testMode : Bool) (stage : String) (s : Schema)
    (parsed : Option Json) (payload : Json)
    (hpayload : recoverPayload offlineMode testMode stage parsed = .ok payload)
    (hbad : ∀ t, artifactTarget payload = some t → s.validate t = false) :
    juryOutcome offlineMode testMode stage (some s) parsed =
      .error (validationError stage s.name) := by
  unfold juryOutcome
  rw [hpayload]
  dsimp only
  simp only [validateArtifact]
  cases ht : artifactTarget payload with
  | none => rfl
  | some t => simp [hbad t ht]

/-- Witness for C4: in degraded mode, a payload whose plan artifact claims
confidence 1.5 still raises the `PlanArtifact` validation error for stage
`"Plan"`. -/
theorem claim_C4_witness :
    juryOutcome true true "Plan" (some PlanArtifact_schema)
        (some overconfidentPlanPayload) =
      .error (validationError "Plan" "PlanArtifact") := by
  have hbad : ∀ t, artifactTarget overconfidentPlanPayload = some t →
      PlanArtifact_schema.validate t = false := by
    intro t ht
    have h0 : artifactTarget overconfidentPlanPayload = some overconfidentPlanArtifact := rfl
    rw [h0] at ht
    rw [← Option.some.inj ht]
    decide
  exact claim_C4 true true "Plan" PlanArtifact_schema (some overconfidentPlanPayload)
    overconfidentPlanPayload rfl hbad

theorem reqConfidence_bounded (j : Json)
    (h : reqField j "confidence" isConfidence = true) : confidenceBounded j := by
  unfold reqField at h
  cases hg : j.get "confidence" with
  | none => rw [hg] at h; cases h
  | some v =>
    rw [hg] at h
    cases v with
    | num q =>
      simp only [isConfidence, Bool.and_eq_true, decide_eq_true_eq] at h
      exact ⟨q, hg, h.1, h.2⟩
    | null => simp [isConfidence] at h
    | bool b => simp [isConfidence] at h
    | str s2 => simp [isConfidence] at h
    | arr xs => simp [isConfidence] at h
    | obj kvs => simp [isConfidence] at h

/-- Claim C6: every artifact value that passes validation against any of the
seven stage schemas has its `confidence` field in [0, 1]; in particular a
plan artifact claiming `confidence = 1.5` fails `PlanArtifact` validation. -/
theorem claim_C6 :
    (∀ j, PlanArtifact_validate j = true → confidenceBounded j) ∧
    (∀ j, ResearchArtifact_validate j = true → confidenceBounded j) ∧
    (∀ j, BacklogArtifact_validate j = true → confidenceBounded j) ∧
    (∀ j, ThreatArtifact_validate j = true → confidenceBounded j) ∧
    (∀ j, IntegrationArtifact_validate j = true → confidenceBounded j) ∧
    (∀ j, TestReport_validate j = true → confidenceBounded j) ∧
    (∀ j, ReleaseReport_validate j = true → confidenceBounded j) ∧
    PlanArtifact_validate overconfidentPlanArtifact = false := by
  refine ⟨?_, ?_, ?_, ?_, ?_, ?_, ?_, by decide⟩
  · intro j h
    simp only [PlanArtifact_validate, Bool.and_eq_true] at h
    exact reqConfidence_bounded j h.2
  · intro j h
    simp only [ResearchArtifact_validate, Bool.and_eq_true] at h
    exact reqConfidence_bounded j h.2
  · intro j h
    simp only [BacklogArtifact_validate, Bool.and_eq_true] at h
    exact reqConfidence_bounded j h.2
  · intro j h
    simp only [ThreatArtifact_validate, Bool.and_eq_true] at h
    exact reqConfidence_bounded j h.2
  · intro j h
    simp only [IntegrationArtifact_validate, Bool.and_eq_true] at h
    exact reqConfidence_bounded j h.2
  · intro j h
    simp only [TestReport_validate, Bool.and_eq_true] at h
    exact reqConfidence_bounded j h.1.2
  · intro j h
    simp only [ReleaseReport_validate, Bool.and_eq_true] at h
    exact reqConfidence_bounded j h.2

/-- Witness for C6: the offline-mode stub plan artifact validates and its
confidence 0.8 lies in the bound. -/
theorem claim_C6_witness :
    PlanArtifact_validate planStubArtifact = true ∧
    confidenceBounded planStubArtifact :=
  ⟨by decide, claim_C6.1 planStubArtifact (by decide)⟩

/-- Claim C8 (code bug): `run_research` slices the prior plan mediator value
raw (`plan_snapshot[:800]`). For string snapshots this is the documented
800-character excerpt, but the debate engine's payloads are JSON objects —
for example the offline-mode stub payload — and slicing an object raises
`TypeError`, so building the research prompt fails on every payload the
engine actually produces for `plan`. The `release` stage wraps its snapshot
in `str(...)` first and never fails. -/
theorem claim_C8_bug :
    (∀ s : String, pyExcerpt (Json.str s) 800 = .ok (Json.str (s.take 800))) ∧
    recoverPayload true false "Plan" none = .ok (stubPayload "Plan") ∧
    stageExcerpts "research"
        [("plan", ⟨stubPayload "Plan", some planStubArtifact, none⟩)] =
      .error sliceDictError ∧
    stageExcerpts "release"
        [("test_debug", ⟨stubPayload "Test Debug", none, none⟩)] = .ok () :=
  ⟨fun _ => rfl, rfl, rfl, rfl⟩

theorem runLoop_keys
    (impl : String → List (String × StageResult) → Except String StageResult)
    (h : ∀ n rs, ∃ r, impl n rs = Except.ok r) (dir start endStage : String) :
    ∀ (names : List String) (capture : Bool)
      (results : List (String × StageResult)) (writes : List (String × Json)),
      ∃ out, runLoop impl dir start endStage names capture results writes = .ok out ∧
        out.results.map Prod.fst =
          results.map Prod.fst ++ loopKeys start endStage names capture := by
  intro names
  induction names with
  | nil =>
    intro capture results writes
    exact ⟨⟨results, writes⟩, rfl, by simp [loopKeys]⟩
  | cons name rest ih =>
    intro capture results writes
    cases hc : capture || (name == start) with
    | false =>
      obtain ⟨out, h1, h2⟩ := ih false results writes
      refine ⟨out, ?_, ?_⟩
      · rw [runLoop, hc]
        simpa using h1
      · rw [h2, loopKeys, hc]
        simp
    | true =>
      obtain ⟨r, hr⟩ := h name results
      cases hend : name == endStage with
      | true =>
        refine ⟨⟨results ++ [(name, (persistStep dir name r writes).1)],
                 (persistStep dir name r writes).2⟩, ?_, ?_⟩
        · rw [runLoop, hc, hr]
          simp [hend]
        · rw [loopKeys, hc]
          simp [hend]
      | false =>
        obtain ⟨out, h1, h2⟩ :=
          ih true (results ++ [(name, (persistStep dir name r writes).1)])
            (persistStep dir name r writes).2
        refine ⟨out, ?_, ?_⟩
        · rw [runLoop, hc, hr]
          simpa [hend] using h1
        · rw [h2, loopKeys, hc]
          simp [hend]

theorem runSwarm_keys
    (impl : String → List (String × StageResult) → Except String StageResult)
    (h : ∀ n rs, ∃ r, impl n rs = Except.ok r) (dir start endStage : String)
    (hs : start ∈ STAGES) (he : endStage ∈ STAGES) :
    ∃ out, runSwarm impl dir start endStage = .ok out ∧
      out.results.map Prod.fst = loopKeys start endStage STAGES false := by
  obtain ⟨out, h1, h2⟩ := runLoop_keys impl h dir start endStage STAGES false [] []
  refine ⟨out, ?_, by simpa using h2⟩
  rw [runSwarm, if_pos hs, if_pos he]
  exact h1

/-- Claim C3: the runner visits the fixed stage order; for any valid
`start`/`end` pair with `start` not after `end`, exactly the contiguous
sub-range from `start` through `end` inclusive executes (assuming every
invoked stage function returns), and the results map holds exactly those
stage names in execution order; the full range is exactly the nine-stage
sequence. -/
theorem claim_C3
    (impl : String → List (String × StageResult) → Except String StageResult)
    (h : ∀ n rs, ∃ r, impl n rs = Except.ok r) (dir start endStage : String)
    (hs : start ∈ STAGES) (he : endStage ∈ STAGES)
    (hle : STAGES.indexOf start ≤ STAGES.indexOf endStage) :
    (∃ out, runSwarm impl dir start endStage = .ok out ∧
       out.results.map Prod.fst =
         (STAGES.drop (STAGES.indexOf start)).take
           (STAGES.indexOf endStage - STAGES.indexOf start + 1)) ∧
    (STAGES.drop (STAGES.indexOf "plan")).take
        (STAGES.indexOf "release" - STAGES.indexOf "plan" + 1) =
      ["plan", "research", "plan_update", "code", "review", "threat",
       "integrate", "test_debug", "release"] := by
  have hseg : ∀ s ∈ STAGES, ∀ e ∈ STAGES, STAGES.indexOf s ≤ STAGES.indexOf e →
      loopKeys s e STAGES false =
        (STAGES.drop (STAGES.indexOf s)).take
          (STAGES.indexOf e - STAGES.indexOf s + 1) := by decide
  obtain ⟨out, h1, h2⟩ := runSwarm_keys impl h dir start endStage hs he
  exact ⟨⟨out, h1, by rw [h2]; exact hseg start hs endStage he hle⟩, by decide⟩

/-- Witness for C3: with an always-succeeding stage implementation,
`start="threat", end="integrate"` executes exactly `[threat, integrate]`. -/
theorem claim_C3_witness :
    ∃ out, runSwarm alwaysOkStage "out" "threat" "integrate" = .ok out ∧
      out.results.map Prod.fst = ["threat", "integrate"] := by
  obtain ⟨⟨out, h1, h2⟩, _⟩ := claim_C3 alwaysOkStage (fun _ _ => ⟨_, rfl⟩)
    "out" "threat" "integrate" (by decide) (by decide) (by decide)
  exact ⟨out, h1, by rw [h2]; decide⟩

/-- Claim C5: unknown `start` or `end` stage names make the runner raise
before any stage function is invoked and before any file is written — the
result is the error for every stage implementation, with no output produced. -/
theorem claim_C5
    (impl : String → List (String × StageResult) → Except String StageResult)
    (dir start endStage : String) :
    (start ∉ STAGES →
       runSwarm impl dir start endStage = .error ("Unknown start stage: " ++ start)) ∧
    (start ∈ STAGES → endStage ∉ STAGES →
       runSwarm impl dir start endStage = .error ("Unknown end stage: " ++ endStage)) := by
  constructor
  · intro hs
    rw [runSwarm, if_neg hs]
  · intro hs he
    rw [runSwarm, if_pos hs, if_neg he]

/-- Witness for C5 at the unknown stage name `"bogus"`. -/
theorem claim_C5_witness :
    runSwarm alwaysOkStage "out" "bogus" "plan" =
      .error ("Unknown start stage: " ++ "bogus") ∧
    runSwarm alwaysOkStage "out" "plan" "bogus" =
      .error ("Unknown end stage: " ++ "bogus") :=
  ⟨(claim_C5 alwaysOkStage "out" "bogus" "plan").1 (by decide),
   (claim_C5 alwaysOkStage "out" "plan" "bogus").2 (by decide) (by decide)⟩

/-- Claim C10: with valid stage names where `end` is strictly earlier than
`start` in the fixed order, the runner raises no error and executes every
stage from `start` through `release` — the `end` bound never takes effect. -/
theorem claim_C10
    (impl : String → List (String × StageResult) → Except String StageResult)
    (h : ∀ n rs, ∃ r, impl n rs = Except.ok r) (dir start endStage : String)
    (hs : start ∈ STAGES) (he : endStage ∈ STAGES)
    (hlt : STAGES.indexOf endStage < STAGES.indexOf start) :
    ∃ out, runSwarm impl dir start endStage = .ok out ∧
      out.results.map Prod.fst = STAGES.drop (STAGES.indexOf start) := by
  have hseg : ∀ s ∈ STAGES, ∀ e ∈ STAGES, STAGES.indexOf e < STAGES.indexOf s →
      loopKeys s e STAGES false = STAGES.drop (STAGES.indexOf s) := by decide
  obtain ⟨out, h1, h2⟩ := runSwarm_keys impl h dir start endStage hs he
  exact ⟨out, h1, by rw [h2]; exact hseg start hs endStage he hlt⟩

/-- Witness for C10: `start="threat", end="plan"` runs `threat` through
`release`. -/
theorem claim_C10_witness :
    ∃ out, runSwarm alwaysOkStage "out" "threat" "plan" = .ok out ∧
      out.results.map Prod.fst = ["threat", "integrate", "test_debug", "release"] := by
  obtain ⟨out, h1, h2⟩ := claim_C10 alwaysOkStage (fun _ _ => ⟨_, rfl⟩)
    "out" "threat" "plan" (by decide) (by decide) (by decide)
  exact ⟨out, h1, by rw [h2]; decide⟩

theorem juryOutcome_no_schema (offlineMode testMode : Bool) (stage : String)
    (parsed : Option Json) (pa : Json × Option Json)
    (h : juryOutcome offlineMode testMode stage none parsed = .ok pa) :
    pa.2 = none := by
  unfold juryOutcome at h
  cases hr : recoverPayload offlineMode testMode stage parsed with
  | error e => rw [hr] at h; cases h
  | ok payload =>
    rw [hr] at h
    dsimp only at h
    simp only [validateArtifact] at h
    cases h
    rfl

theorem stageFn_props (env : RunEnv) (name : String)
    (rs : List (String × StageResult)) (r : StageResult)
    (h : stageFn env name rs = .ok r) :
    r.artifactPath = none ∧ ((name = "code" ∨ name = "review") → r.artifact = none) := by
  unfold stageFn at h
  cases hx : stageExcerpts name rs with
  | error e => rw [hx] at h; cases h
  | ok u =>
    rw [hx] at h
    cases hy : juryOutcome env.offline env.testMode (stageLabelOf name)
        (stageSchemaOf name) (env.parsed name) with
    | error e => rw [hy] at h; cases h
    | ok pa =>
      rw [hy] at h
      cases h
      refine ⟨rfl, ?_⟩
      intro hn
      have hsch : stageSchemaOf name = none := by
        rcases hn with rfl | rfl <;> rfl
      rw [hsch] at hy
      exact juryOutcome_no_schema _ _ _ _ _ hy

theorem persistStep_none (dir name : String) (res : StageResult)
    (writes : List (String × Json)) (ha : res.artifact = none) :
    persistStep dir name res writes = (res, writes) := by
  unfold persistStep
  rw [ha]

theorem persistStep_some (dir name : String) (res : StageResult)
    (writes : List (String × Json)) (a0 : Json) (ha : res.artifact = some a0) :
    persistStep dir name res writes =
      (⟨res.mediator, res.artifact, some (dir ++ "/" ++ artifactFilenameOf name)⟩,
       writes ++ [(dir ++ "/" ++ artifactFilenameOf name, a0)]) := by
  unfold persistStep
  rw [ha]

theorem persistStep_writes_mono (dir name : String) (res : StageResult)
    (writes : List (String × Json)) (x : String × Json) (hx : x ∈ writes) :
    x ∈ (persistStep dir name res writes).2 := by
  cases ha : res.artifact with
  | none => rw [persistStep_none dir name res writes ha]; exact hx
  | some a0 =>
    rw [persistStep_some dir name res writes a0 ha]
    exact List.mem_append_left _ hx

theorem persistStep_new_ok (dir name : String) (res : StageResult)
    (writes : List (String × Json)) :
    persistedOK dir (persistStep dir name res writes).2
      (name, (persistStep dir name res writes).1) := by
  intro a hart
  cases ha : res.artifact with
  | none =>
    rw [persistStep_none dir name res writes ha] at hart
    simp [ha] at hart
  | some a0 =>
    rw [persistStep_some dir name res writes a0 ha] at hart ⊢
    dsimp only at hart ⊢
    rw [ha] at hart
    have haa : a = a0 := (Option.some.inj hart).symm
    subst haa
    exact ⟨rfl, by simp⟩

theorem persistStep_artifact (dir name : String) (res : StageResult)
    (writes : List (String × Json)) :
    (persistStep dir name res writes).1.artifact = res.artifact := by
  cases ha : res.artifact with
  | none => rw [persistStep_none dir name res writes ha]; exact ha
  | some a0 => rw [persistStep_some dir name res writes a0 ha]; exact ha

theorem runLoop_persist (env : RunEnv) (dir start endStage : String) :
    ∀ (names : List String) (capture : Bool)
      (results : List (String × StageResult)) (writes : List (String × Json))
      (out : RunOutput),
      runLoop (stageFn env) dir start endStage names capture results writes = .ok out →
      (∀ p ∈ results, persistedOK dir writes p) →
      (∀ p ∈ results, (p.1 = "code" ∨ p.1 = "review") → p.2.artifact = none) →
      (∀ p ∈ out.results, persistedOK dir out.writes p) ∧
      (∀ p ∈ out.results, (p.1 = "code" ∨ p.1 = "review") → p.2.artifact = none) := by
  intro names
  induction names with
  | nil =>
    intro capture results writes out h hinv hcr
    cases h
    exact ⟨hinv, hcr⟩
  | cons name rest ih =>
    intro capture results writes out h hinv hcr
    rw [runLoop] at h
    cases hc : capture || (name == start) with
    | false =>
      rw [hc] at h
      simp only [reduceIte] at h
      exact ih _ results writes out h hinv hcr
    | true =>
      rw [hc] at h
      simp only [Bool.true_eq_false, reduceIte] at h
      cases hf : stageFn env name results with
      | error e => rw [hf] at h; cases h
      | ok r =>
        rw [hf] at h
        obtain ⟨hpath, hcrr⟩ := stageFn_props env name results r hf
        have hnew : ∀ p ∈ results ++ [(name, (persistStep dir name r writes).1)],
            persistedOK dir (persistStep dir name r writes).2 p := by
          intro p hp
          rcases List.mem_append.mp hp with hp | hp
          · intro a hart
            obtain ⟨hpa, hw⟩ := hinv p hp a hart
            exact ⟨hpa, persistStep_writes_mono dir name r writes _ hw⟩
          · rcases List.mem_singleton.mp hp with rfl
            exact persistStep_new_ok dir name r writes
        have hnewcr : ∀ p ∈ results ++ [(name, (persistStep dir name r writes).1)],
            (p.1 = "code" ∨ p.1 = "review") → p.2.artifact = none := by
          intro p hp hn
          rcases List.mem_append.mp hp with hp | hp
          · exact hcr p hp hn
          · rcases List.mem_singleton.mp hp with rfl
            rw [persistStep_artifact]
            exact hcrr hn
        cases hend : name == endStage with
        | true =>
          rw [hend] at h
          simp only [reduceIte] at h
          cases h
          exact ⟨hnew, hnewcr⟩
        | false =>
          rw [hend] at h
          simp only [Bool.false_eq_true, reduceIte] at h
          exact ih _ _ _ out h hnew hnewcr

/-- Claim C7: whenever the runner (over the embedded stage functions)
completes, every executed stage whose result carries a non-null artifact had
that artifact written to `output_dir / stage filename` and the path recorded
in the result's `artifact_path`; the stage filenames are the
`ARTIFACT_FILENAMES` of `swarm.py`; and the `code` and `review` stages never
carry an artifact (they pass no schema to the debate engine), so they never
produce such a file. -/
theorem claim_C7 (env : RunEnv) (dir start endStage : String) (out : RunOutput)
    (h : runSwarm (stageFn env) dir start endStage = .ok out) :
    (∀ p ∈ out.results, persistedOK dir out.writes p) ∧
    (∀ p ∈ out.results, (p.1 = "code" ∨ p.1 = "review") → p.2.artifact = none) ∧
    artifactFilenameOf "plan" = "plan.json" ∧
    artifactFilenameOf "research" = "research.json" ∧
    artifactFilenameOf "plan_update" = "backlog.json" ∧
    artifactFilenameOf "threat" = "threat.json" ∧
    artifactFilenameOf "integrate" = "integration.json" ∧
    artifactFilenameOf "test_debug" = "test_report.json" ∧
    artifactFilenameOf "release" = "release_report.json" := by
  rw [runSwarm] at h
  by_cases hs : start ∈ STAGES
  · rw [if_pos hs] at h
    by_cases he : endStage ∈ STAGES
    · rw [if_pos he] at h
      obtain ⟨h1, h2⟩ := runLoop_persist env dir start endStage STAGES false [] [] out h
        (by simp) (by simp)
      exact ⟨h1, h2, rfl, rfl, rfl, rfl, rfl, rfl, rfl⟩
    · rw [if_neg he] at h; cases h
  · rw [if_neg hs] at h; cases h

/-- Witness for C7: an offline-mode run of just the plan stage writes
`out/plan.json` with the validated stub plan artifact and records the path. -/
theorem claim_C7_witness :
    runSwarm (stageFn offlineEnv) "out" "plan" "plan" = .ok planRunOut ∧
    (∀ p ∈ planRunOut.results, persistedOK "out" planRunOut.writes p) ∧
    (∀ p ∈ planRunOut.results, (p.1 = "code" ∨ p.1 = "review") → p.2.artifact = none) := by
  have h : runSwarm (stageFn offlineEnv) "out" "plan" "plan" = .ok planRunOut := rfl
  obtain ⟨h1, h2, _⟩ := claim_C7 offlineEnv "out" "plan" "plan" planRunOut h
  exact ⟨h, h1, h2⟩
